import Mathlib

/-!
Verification development for the gt-telem telemetry client.

Shallow embedding conventions:
- Python bytes objects are embedded as `List Nat`, one entry per byte.
- Machine integers read off the wire are embedded as `Int` with explicit
  two-complement decoding from the unsigned word.
- IEEE-754 32-bit floats are carried as their raw 4-byte bit pattern
  (a `Nat` below 2 to the 32); no claim inspects float arithmetic, only
  which fields are populated, so the bit pattern is a faithful carrier.
- Python exceptions are embedded as `Except` or `Option` results; a
  caught exception corresponds to matching on the error constructor.
-/

set_option maxRecDepth 100000

namespace GtTelem

/-- Assemble a little-endian unsigned word from a byte list
(first byte is least significant), as struct.unpack with format prefix less-than does. -/
def wordLE (bs : List Nat) : Nat :=
  bs.foldr (fun b acc => b + 256 * acc) 0

/-- Assemble a big-endian unsigned word from a byte list
(first byte is most significant), as struct.unpack with format prefix greater-than does. -/
def wordBE (bs : List Nat) : Nat :=
  bs.foldl (fun acc b => acc * 256 + b) 0

/-- Decode an unsigned w-bit word as a signed two-complement integer,
as struct formats i and h do. -/
def toSigned (w : Nat) (bits : Nat) : Int :=
  if w < 2 ^ (bits - 1) then (w : Int) else (w : Int) - 2 ^ bits

/-- Serialize an unsigned 32-bit word to 4 little-endian bytes,
as struct.pack format I does. -/
def packLE4 (w : Nat) : List Nat :=
  [w % 256, w / 256 % 256, w / 65536 % 256, w / 16777216 % 256]

/-- Byte values of a Python ASCII string literal. -/
def strBytes (s : String) : List Nat :=
  s.data.map Char.toNat

/-- Embedding of bytes.decode with the ascii codec: succeeds exactly when
every byte is below 128, yielding the corresponding character string. -/
def asciiDecode (bs : List Nat) : Option String :=
  if bs.all (fun b => b < 128) then some (String.mk (bs.map Char.ofNat)) else none

/-! ## SpanReader (gt_telem/models/helpers.py)

A cursor over a byte buffer.  The source stores the byte order as the
struct prefix character; reads use struct.unpack_from, which raises when
fewer bytes remain than the format needs -- embedded as `Option`. -/

structure SpanReader where
  view : List Nat
  byte_order : String
  position : Nat

/-- Embedding of SpanReader.__init__: byte_order is the word little or big,
stored as the struct prefix. -/
def SpanReader.init (data : List Nat) (byte_order : String) : SpanReader :=
  { view := data
    byte_order := if byte_order = "little" then "<" else ">"
    position := 0 }

/-- Read an n-byte unsigned word at the current position honoring the byte
order, advancing the cursor; none when the buffer is exhausted
(struct.error in the source). -/
def SpanReader.unpackWord (sr : SpanReader) (n : Nat) : Option (Nat × SpanReader) :=
  if sr.position + n ≤ sr.view.length then
    let bs := (sr.view.drop sr.position).take n
    some (if sr.byte_order = "<" then wordLE bs else wordBE bs,
          { sr with position := sr.position + n })
  else none

/-- Embedding of SpanReader.read_int32 (struct format i, signed). -/
def SpanReader.read_int32 (sr : SpanReader) : Option (Int × SpanReader) :=
  (sr.unpackWord 4).map (fun p => (toSigned p.1 32, p.2))

/-- Embedding of SpanReader.read_int16 (struct format h, signed). -/
def SpanReader.read_int16 (sr : SpanReader) : Option (Int × SpanReader) :=
  (sr.unpackWord 2).map (fun p => (toSigned p.1 16, p.2))

/-- Embedding of SpanReader.read_single (struct format f): the 32-bit word
is kept as the raw IEEE-754 bit pattern. -/
def SpanReader.read_single (sr : SpanReader) : Option (Nat × SpanReader) :=
  sr.unpackWord 4

/-- Embedding of SpanReader.read_byte (struct format B, unsigned, no byte
order). -/
def SpanReader.read_byte (sr : SpanReader) : Option (Nat × SpanReader) :=
  (sr.view.get? sr.position).map (fun b => (b, { sr with position := sr.position + 1 }))

/-! ## Telemetry data model (gt_telem/models/telemetry_packet.py)

The source builds a telemetry_data dict of the base fields in
TurismoClient._parse_telemetry, optionally updates it with the trailer
fields of the active heartbeat type, and constructs the TelemetryPacket
dataclass from it.  `TelemetryData` embeds that base dict; the dataclass
extends it with the optional trailer fields, which default to None. -/

structure TelemetryData where
  position_x : Nat
  position_y : Nat
  position_z : Nat
  velocity_x : Nat
  velocity_y : Nat
  velocity_z : Nat
  rotation_x : Nat
  rotation_y : Nat
  rotation_z : Nat
  orientation : Nat
  ang_vel_x : Nat
  ang_vel_y : Nat
  ang_vel_z : Nat
  body_height : Nat
  engine_rpm : Nat
  iv : Nat
  fuel_level : Nat
  fuel_capacity : Nat
  speed_mps : Nat
  boost_pressure : Nat
  oil_pressure : Nat
  water_temp : Nat
  oil_temp : Nat
  tire_fl_temp : Nat
  tire_fr_temp : Nat
  tire_rl_temp : Nat
  tire_rr_temp : Nat
  packet_id : Int
  current_lap : Int
  total_laps : Int
  best_lap_time_ms : Int
  last_lap_time_ms : Int
  time_of_day_ms : Int
  race_start_pos : Int
  total_cars : Int
  min_alert_rpm : Int
  max_alert_rpm : Int
  calc_max_speed : Int
  flags : Int
  bits : Nat
  throttle : Nat
  brake : Nat
  empty : Nat
  road_plane_x : Nat
  road_plane_y : Nat
  road_plane_z : Nat
  road_plane_dist : Nat
  wheel_fl_rps : Nat
  wheel_fr_rps : Nat
  wheel_rl_rps : Nat
  wheel_rr_rps : Nat
  tire_fl_radius : Nat
  tire_fr_radius : Nat
  tire_rl_radius : Nat
  tire_rr_radius : Nat
  tire_fl_sus_height : Nat
  tire_fr_sus_height : Nat
  tire_rl_sus_height : Nat
  tire_rr_sus_height : Nat
  unused1 : Int
  unused2 : Int
  unused3 : Int
  unused4 : Int
  unused5 : Int
  unused6 : Int
  unused7 : Int
  unused8 : Int
  clutch_pedal : Nat
  clutch_engagement : Nat
  trans_rpm : Nat
  trans_top_speed : Nat
  gear1 : Nat
  gear2 : Nat
  gear3 : Nat
  gear4 : Nat
  gear5 : Nat
  gear6 : Nat
  gear7 : Nat
  gear8 : Nat
  car_code : Int

/-- Embedding of the TelemetryPacket dataclass: the base fields plus the
optional per-variant trailer fields, all defaulting to None. -/
structure TelemetryPacket extends TelemetryData where
  wheel_rotation_radians : Option Nat := none
  filler_float_fb : Option Nat := none
  sway : Option Nat := none
  heave : Option Nat := none
  surge : Option Nat := none
  throttle_filtered : Option Nat := none
  brake_filtered : Option Nat := none
  unk_tilde_1 : Option Nat := none
  unk_tilde_2 : Option Nat := none
  energy_recovery : Option Nat := none
  unk_tilde_3 : Option Nat := none

/-- The Telemetry class of gt_telem/models/telemetry.py subclasses
TelemetryPacket adding only derived properties, no fields. -/
abbrev Telemetry := TelemetryPacket

/-! ## Derived properties (gt_telem/models/telemetry.py) and
formatting helpers (gt_telem/models/helpers.py) -/

/-- Zero-padded two-digit rendering of a nonnegative number, as the Python
format spec 02 does. -/
def pad2 (n : Nat) : String :=
  if n < 10 then "0" ++ toString n else toString n

/-- Zero-padded three-digit rendering of a nonnegative number, as the
Python format spec 03 does. -/
def pad3 (n : Nat) : String :=
  if n < 10 then "00" ++ toString n else if n < 100 then "0" ++ toString n else toString n

/-- Embedding of helpers.format_time: clamp to zero, then render
minutes, seconds and milliseconds. -/
def format_time (milliseconds : Int) : String :=
  let ms : Nat := (max 0 milliseconds).toNat
  let minutes := ms / 60000
  let rem1 := ms % 60000
  let seconds := rem1 / 1000
  let rem2 := rem1 % 1000
  pad2 minutes ++ ":" ++ pad2 seconds ++ "." ++ pad3 rem2

/-- Embedding of helpers.format_time_of_day. -/
def format_time_of_day (milliseconds : Int) (use_24hr : Bool := false) : String :=
  let ms : Nat := (max 0 milliseconds).toNat
  let hours := ms / 3600000
  let rem1 := ms % 3600000
  let minutes := rem1 / 60000
  let rem2 := rem1 % 60000
  let seconds := rem2 / 1000
  if use_24hr then
    let am_pm := if hours < 12 then "AM" else "PM"
    let hours12 := if hours % 12 = 0 then 12 else hours % 12
    pad2 hours12 ++ ":" ++ pad2 minutes ++ ":" ++ pad2 seconds ++ " " ++ am_pm
  else
    pad2 hours ++ ":" ++ pad2 minutes ++ ":" ++ pad2 seconds

/-- Embedding of the Telemetry.best_lap_time property: None when the raw
field is the -1 sentinel, otherwise the formatted time. -/
def TelemetryPacket.best_lap_time (t : Telemetry) : Option String :=
  if t.best_lap_time_ms = -1 then none else some (format_time t.best_lap_time_ms)

/-- Embedding of the Telemetry.last_lap_time property. -/
def TelemetryPacket.last_lap_time (t : Telemetry) : Option String :=
  if t.last_lap_time_ms = -1 then none else some (format_time t.last_lap_time_ms)

/-- Embedding of the Telemetry.time_of_day property. -/
def TelemetryPacket.time_of_day (t : Telemetry) : Option String :=
  if t.time_of_day_ms = -1 then none else some (format_time_of_day t.time_of_day_ms)

/-- Test of the Python expression (1 shifted left by k) AND n, for an
arbitrary integer n: in two-complement arithmetic this is the k-th bit,
i.e. the parity of the floor division of n by 2 to the k.  Int.ediv with
a positive divisor is exactly floor division, matching Python. -/
def pyBitTest (k : Nat) (n : Int) : Bool :=
  Int.emod (Int.ediv n ((2 : Int) ^ k)) 2 == 1

/-- Embedding of the Telemetry.cars_on_track property: bit 0 of the signed
flags field, tested with two-complement AND as Python does. -/
def TelemetryPacket.cars_on_track (t : Telemetry) : Bool :=
  pyBitTest 0 t.flags

/-! ## Frame decoder (TurismoClient._parse_telemetry)

The source reads the base fields into the telemetry_data dict in a fixed
order.  `read_telemetry_data` embeds those reads; it returns the populated
base record together with the advanced reader. -/

/-- Read the base field sequence of _parse_telemetry, in source order;
none when the buffer runs out (struct.error in the source). -/
def read_telemetry_data (sr0 : SpanReader) : Option (TelemetryData × SpanReader) :=
  match SpanReader.read_single sr0 with
  | none => none
  | some (position_x, sr1) =>
  match SpanReader.read_single sr1 with
  | none => none
  | some (position_y, sr2) =>
  match SpanReader.read_single sr2 with
  | none => none
  | some (position_z, sr3) =>
  match SpanReader.read_single sr3 with
  | none => none
  | some (velocity_x, sr4) =>
  match SpanReader.read_single sr4 with
  | none => none
  | some (velocity_y, sr5) =>
  match SpanReader.read_single sr5 with
  | none => none
  | some (velocity_z, sr6) =>
  match SpanReader.read_single sr6 with
  | none => none
  | some (rotation_x, sr7) =>
  match SpanReader.read_single sr7 with
  | none => none
  | some (rotation_y, sr8) =>
  match SpanReader.read_single sr8 with
  | none => none
  | some (rotation_z, sr9) =>
  match SpanReader.read_single sr9 with
  | none => none
  | some (orientation, sr10) =>
  match SpanReader.read_single sr10 with
  | none => none
  | some (ang_vel_x, sr11) =>
  match SpanReader.read_single sr11 with
  | none => none
  | some (ang_vel_y, sr12) =>
  match SpanReader.read_single sr12 with
  | none => none
  | some (ang_vel_z, sr13) =>
  match SpanReader.read_single sr13 with
  | none => none
  | some (body_height, sr14) =>
  match SpanReader.read_single sr14 with
  | none => none
  | some (engine_rpm, sr15) =>
  match SpanReader.read_single sr15 with
  | none => none
  | some (iv, sr16) =>
  match SpanReader.read_single sr16 with
  | none => none
  | some (fuel_level, sr17) =>
  match SpanReader.read_single sr17 with
  | none => none
  | some (fuel_capacity, sr18) =>
  match SpanReader.read_single sr18 with
  | none => none
  | some (speed_mps, sr19) =>
  match SpanReader.read_single sr19 with
  | none => none
  | some (boost_pressure, sr20) =>
  match SpanReader.read_single sr20 with
  | none => none
  | some (oil_pressure, sr21) =>
  match SpanReader.read_single sr21 with
  | none => none
  | some (water_temp, sr22) =>
  match SpanReader.read_single sr22 with
  | none => none
  | some (oil_temp, sr23) =>
  match SpanReader.read_single sr23 with
  | none => none
  | some (tire_fl_temp, sr24) =>
  match SpanReader.read_single sr24 with
  | none => none
  | some (tire_fr_temp, sr25) =>
  match SpanReader.read_single sr25 with
  | none => none
  | some (tire_rl_temp, sr26) =>
  match SpanReader.read_single sr26 with
  | none => none
  | some (tire_rr_temp, sr27) =>
  match SpanReader.read_int32 sr27 with
  | none => none
  | some (packet_id, sr28) =>
  match SpanReader.read_int16 sr28 with
  | none => none
  | some (current_lap, sr29) =>
  match SpanReader.read_int16 sr29 with
  | none => none
  | some (total_laps, sr30) =>
  match SpanReader.read_int32 sr30 with
  | none => none
  | some (best_lap_time_ms, sr31) =>
  match SpanReader.read_int32 sr31 with
  | none => none
  | some (last_lap_time_ms, sr32) =>
  match SpanReader.read_int32 sr32 with
  | none => none
  | some (time_of_day_ms, sr33) =>
  match SpanReader.read_int16 sr33 with
  | none => none
  | some (race_start_pos, sr34) =>
  match SpanReader.read_int16 sr34 with
  | none => none
  | some (total_cars, sr35) =>
  match SpanReader.read_int16 sr35 with
  | none => none
  | some (min_alert_rpm, sr36) =>
  match SpanReader.read_int16 sr36 with
  | none => none
  | some (max_alert_rpm, sr37) =>
  match SpanReader.read_int16 sr37 with
  | none => none
  | some (calc_max_speed, sr38) =>
  match SpanReader.read_int16 sr38 with
  | none => none
  | some (flags, sr39) =>
  match SpanReader.read_byte sr39 with
  | none => none
  | some (bits, sr40) =>
  match SpanReader.read_byte sr40 with
  | none => none
  | some (throttle, sr41) =>
  match SpanReader.read_byte sr41 with
  | none => none
  | some (brake, sr42) =>
  match SpanReader.read_byte sr42 with
  | none => none
  | some (empty, sr43) =>
  match SpanReader.read_single sr43 with
  | none => none
  | some (road_plane_x, sr44) =>
  match SpanReader.read_single sr44 with
  | none => none
  | some (road_plane_y, sr45) =>
  match SpanReader.read_single sr45 with
  | none => none
  | some (road_plane_z, sr46) =>
  match SpanReader.read_single sr46 with
  | none => none
  | some (road_plane_dist, sr47) =>
  match SpanReader.read_single sr47 with
  | none => none
  | some (wheel_fl_rps, sr48) =>
  match SpanReader.read_single sr48 with
  | none => none
  | some (wheel_fr_rps, sr49) =>
  match SpanReader.read_single sr49 with
  | none => none
  | some (wheel_rl_rps, sr50) =>
  match SpanReader.read_single sr50 with
  | none => none
  | some (wheel_rr_rps, sr51) =>
  match SpanReader.read_single sr51 with
  | none => none
  | some (tire_fl_radius, sr52) =>
  match SpanReader.read_single sr52 with
  | none => none
  | some (tire_fr_radius, sr53) =>
  match SpanReader.read_single sr53 with
  | none => none
  | some (tire_rl_radius, sr54) =>
  match SpanReader.read_single sr54 with
  | none => none
  | some (tire_rr_radius, sr55) =>
  match SpanReader.read_single sr55 with
  | none => none
  | some (tire_fl_sus_height, sr56) =>
  match SpanReader.read_single sr56 with
  | none => none
  | some (tire_fr_sus_height, sr57) =>
  match SpanReader.read_single sr57 with
  | none => none
  | some (tire_rl_sus_height, sr58) =>
  match SpanReader.read_single sr58 with
  | none => none
  | some (tire_rr_sus_height, sr59) =>
  match SpanReader.read_int32 sr59 with
  | none => none
  | some (unused1, sr60) =>
  match SpanReader.read_int32 sr60 with
  | none => none
  | some (unused2, sr61) =>
  match SpanReader.read_int32 sr61 with
  | none => none
  | some (unused3, sr62) =>
  match SpanReader.read_int32 sr62 with
  | none => none
  | some (unused4, sr63) =>
  match SpanReader.read_int32 sr63 with
  | none => none
  | some (unused5, sr64) =>
  match SpanReader.read_int32 sr64 with
  | none => none
  | some (unused6, sr65) =>
  match SpanReader.read_int32 sr65 with
  | none => none
  | some (unused7, sr66) =>
  match SpanReader.read_int32 sr66 with
  | none => none
  | some (unused8, sr67) =>
  match SpanReader.read_single sr67 with
  | none => none
  | some (clutch_pedal, sr68) =>
  match SpanReader.read_single sr68 with
  | none => none
  | some (clutch_engagement, sr69) =>
  match SpanReader.read_single sr69 with
  | none => none
  | some (trans_rpm, sr70) =>
  match SpanReader.read_single sr70 with
  | none => none
  | some (trans_top_speed, sr71) =>
  match SpanReader.read_single sr71 with
  | none => none
  | some (gear1, sr72) =>
  match SpanReader.read_single sr72 with
  | none => none
  | some (gear2, sr73) =>
  match SpanReader.read_single sr73 with
  | none => none
  | some (gear3, sr74) =>
  match SpanReader.read_single sr74 with
  | none => none
  | some (gear4, sr75) =>
  match SpanReader.read_single sr75 with
  | none => none
  | some (gear5, sr76) =>
  match SpanReader.read_single sr76 with
  | none => none
  | some (gear6, sr77) =>
  match SpanReader.read_single sr77 with
  | none => none
  | some (gear7, sr78) =>
  match SpanReader.read_single sr78 with
  | none => none
  | some (gear8, sr79) =>
  match SpanReader.read_int32 sr79 with
  | none => none
  | some (car_code, sr80) =>
  some ({ position_x := position_x
          position_y := position_y
          position_z := position_z
          velocity_x := velocity_x
          velocity_y := velocity_y
          velocity_z := velocity_z
          rotation_x := rotation_x
          rotation_y := rotation_y
          rotation_z := rotation_z
          orientation := orientation
          ang_vel_x := ang_vel_x
          ang_vel_y := ang_vel_y
          ang_vel_z := ang_vel_z
          body_height := body_height
          engine_rpm := engine_rpm
          iv := iv
          fuel_level := fuel_level
          fuel_capacity := fuel_capacity
          speed_mps := speed_mps
          boost_pressure := boost_pressure
          oil_pressure := oil_pressure
          water_temp := water_temp
          oil_temp := oil_temp
          tire_fl_temp := tire_fl_temp
          tire_fr_temp := tire_fr_temp
          tire_rl_temp := tire_rl_temp
          tire_rr_temp := tire_rr_temp
          packet_id := packet_id
          current_lap := current_lap
          total_laps := total_laps
          best_lap_time_ms := best_lap_time_ms
          last_lap_time_ms := last_lap_time_ms
          time_of_day_ms := time_of_day_ms
          race_start_pos := race_start_pos
          total_cars := total_cars
          min_alert_rpm := min_alert_rpm
          max_alert_rpm := max_alert_rpm
          calc_max_speed := calc_max_speed
          flags := flags
          bits := bits
          throttle := throttle
          brake := brake
          empty := empty
          road_plane_x := road_plane_x
          road_plane_y := road_plane_y
          road_plane_z := road_plane_z
          road_plane_dist := road_plane_dist
          wheel_fl_rps := wheel_fl_rps
          wheel_fr_rps := wheel_fr_rps
          wheel_rl_rps := wheel_rl_rps
          wheel_rr_rps := wheel_rr_rps
          tire_fl_radius := tire_fl_radius
          tire_fr_radius := tire_fr_radius
          tire_rl_radius := tire_rl_radius
          tire_rr_radius := tire_rr_radius
          tire_fl_sus_height := tire_fl_sus_height
          tire_fr_sus_height := tire_fr_sus_height
          tire_rl_sus_height := tire_rl_sus_height
          tire_rr_sus_height := tire_rr_sus_height
          unused1 := unused1
          unused2 := unused2
          unused3 := unused3
          unused4 := unused4
          unused5 := unused5
          unused6 := unused6
          unused7 := unused7
          unused8 := unused8
          clutch_pedal := clutch_pedal
          clutch_engagement := clutch_engagement
          trans_rpm := trans_rpm
          trans_top_speed := trans_top_speed
          gear1 := gear1
          gear2 := gear2
          gear3 := gear3
          gear4 := gear4
          gear5 := gear5
          gear6 := gear6
          gear7 := gear7
          gear8 := gear8
          car_code := car_code },
        sr80)

/-- Embedding of TurismoClient._parse_telemetry: read the base fields, then
the trailer of the active heartbeat type.  Variant B appends five
motion-data floats; variant tilde appends four bytes, skips four floats
and appends two more floats; any other heartbeat type (variant A) reads
nothing further, leaving every trailer field at its None default. -/
def parseTelemetry (heartbeat_type : String) (sr0 : SpanReader) : Option Telemetry :=
  match read_telemetry_data sr0 with
  | none => none
  | some (base, sr) =>
  if heartbeat_type = "B" then
    match SpanReader.read_single sr with
    | none => none
    | some (wheel_rotation_radians, srb1) =>
    match SpanReader.read_single srb1 with
    | none => none
    | some (filler_float_fb, srb2) =>
    match SpanReader.read_single srb2 with
    | none => none
    | some (sway, srb3) =>
    match SpanReader.read_single srb3 with
    | none => none
    | some (heave, srb4) =>
    match SpanReader.read_single srb4 with
    | none => none
    | some (surge, srb5) =>
    some { toTelemetryData := base
           wheel_rotation_radians := some wheel_rotation_radians
           filler_float_fb := some filler_float_fb
           sway := some sway
           heave := some heave
           surge := some surge }
  else if heartbeat_type = "~" then
    match SpanReader.read_byte sr with
    | none => none
    | some (throttle_filtered, srt1) =>
    match SpanReader.read_byte srt1 with
    | none => none
    | some (brake_filtered, srt2) =>
    match SpanReader.read_byte srt2 with
    | none => none
    | some (unk_tilde_1, srt3) =>
    match SpanReader.read_byte srt3 with
    | none => none
    | some (unk_tilde_2, srt4) =>
    match SpanReader.read_single srt4 with
    | none => none
    | some (_skip1, srt5) =>
    match SpanReader.read_single srt5 with
    | none => none
    | some (_skip2, srt6) =>
    match SpanReader.read_single srt6 with
    | none => none
    | some (_skip3, srt7) =>
    match SpanReader.read_single srt7 with
    | none => none
    | some (_skip4, srt8) =>
    match SpanReader.read_single srt8 with
    | none => none
    | some (energy_recovery, srt9) =>
    match SpanReader.read_single srt9 with
    | none => none
    | some (unk_tilde_3, srt10) =>
    some { toTelemetryData := base
           throttle_filtered := some throttle_filtered
           brake_filtered := some brake_filtered
           unk_tilde_1 := some unk_tilde_1
           unk_tilde_2 := some unk_tilde_2
           energy_recovery := some energy_recovery
           unk_tilde_3 := some unk_tilde_3 }
  else
    some { toTelemetryData := base }
/-! ## PDEncyption (gt_telem/net/crypto.py)

The cipher object stores only the is_gt7 edition flag; its decrypt method
extracts a 4-byte little-endian seed at offset 0x40 of the ciphertext,
builds the 8-byte nonce by packing (seed XOR mask, seed) as two
little-endian 32-bit words, and calls the external Salsa20_xor primitive
with the first 32 bytes of the edition key.  Salsa20_xor lives in the
external salsa20 package, not in this repository, so it is a parameter of
the embedding; no claim depends on its internals. -/

/-- Embedding of the class constant PDEncyption._DEFAULT_KEY. -/
def DEFAULT_KEY : List Nat := strBytes "Simulator Interface Packet ver 0.0"

/-- Embedding of the class constant PDEncyption._GT7_KEY. -/
def GT7_KEY : List Nat := strBytes "Simulator Interface Packet GT7 ver 0.0"

/-- Embedding of the class constant PDEncyption._IV_MASK. -/
def IV_MASK : Nat := 0xDEADBEAF

/-- Nonce mask consulted by PDEncyption.decrypt for a session whose
heartbeat (wire-variant) type is the argument.  The decrypt code path
reads only the single class constant _IV_MASK; the variant is neither
stored in the cipher object (PDEncyption.__init__ takes only is_gt7) nor
passed to decrypt, so the consulted mask is the same constant for every
variant. -/
def nonce_mask_for_variant (heartbeat_type : String) : Nat := IV_MASK

/-- Edition key selected by PDEncyption.decrypt: the expression
self._GT7_KEY sliced to 32 bytes when is_gt7, else self._DEFAULT_KEY
sliced to 32 bytes. -/
def edition_key (is_gt7 : Bool) : List Nat :=
  if is_gt7 then GT7_KEY.take 32 else DEFAULT_KEY.take 32

/-- Embedding of PDEncyption.decrypt.  The seed slice
ciphertext[0x40:0x44] followed by struct.unpack format I raises
struct.error unless the slice holds exactly 4 bytes, i.e. unless the
datagram has at least 0x44 bytes; that exception is the error case.
Otherwise the nonce is packed from (seed XOR _IV_MASK, seed) and the
stream cipher is applied. -/
def decrypt (salsa : List Nat → List Nat → List Nat → List Nat)
    (is_gt7 : Bool) (ciphertext : List Nat) : Except Unit (List Nat) :=
  let seedBytes := (ciphertext.drop 0x40).take 4
  if seedBytes.length = 4 then
    let seed := wordLE seedBytes
    let iv1 := seed ^^^ IV_MASK
    let iv := packLE4 iv1 ++ packLE4 seed
    Except.ok (salsa ciphertext iv (edition_key is_gt7))
  else Except.error ()

/-! ## Callback dispatch (TurismoClient._invoke_callbacks and the
per-callback wrappers)

A registered callback is embedded as its identity (the __name__ used in
log messages), its coroutine-function flag, the registered extra args and
its behavior on a frame: normal return or a raised exception carrying a
message.  The wrappers catch every exception and emit the log line built
from the callback name; they return only the produced log entries, so by
construction nothing propagates to the caller, exactly as the
try/except blocks in the source return None after logging. -/

structure Callback where
  name : String
  is_async : Bool
  args : List Nat
  call : Telemetry → List Nat → Except String Unit

/-- Embedding of TurismoClient._run_sync_callback_threaded: invoke the
callback with the registered args when they are truthy, catch any
exception and log it with the callback name.  The returned list holds the
log entries the wrapper emitted. -/
def run_sync_callback_threaded (cb : Callback) (telemetry_value : Telemetry) : List String :=
  match (if cb.args.isEmpty then cb.call telemetry_value [] else cb.call telemetry_value cb.args) with
  | Except.ok _ => []
  | Except.error e => ["Error in sync callback " ++ cb.name ++ ": " ++ e]

/-- Embedding of TurismoClient._run_async_callback: run the coroutine on a
fresh event loop (loop management elided: it does not affect the
result), catch any exception and log it with the callback name. -/
def run_async_callback (cb : Callback) (telemetry_value : Telemetry) : List String :=
  match (if cb.args.isEmpty then cb.call telemetry_value [] else cb.call telemetry_value cb.args) with
  | Except.ok _ => []
  | Except.error e => ["Error in async callback " ++ cb.name ++ ": " ++ e]

/-- Dispatch of one registered callback from _invoke_callbacks: async
callbacks go through _run_async_callback, sync ones through
_run_sync_callback_threaded (thread-pool submission elided; each
submission is independent of the others). -/
def dispatch_one (cb : Callback) (telemetry_value : Telemetry) : List String :=
  if cb.is_async then run_async_callback cb telemetry_value
  else run_sync_callback_threaded cb telemetry_value

/-- Embedding of TurismoClient._invoke_callbacks: every registered
callback is dispatched, each independently of the others; the result is
the concatenation of the per-callback logs. -/
def invoke_callbacks (cbs : List Callback) (telemetry_value : Telemetry) : List String :=
  (cbs.map (fun cb => dispatch_one cb telemetry_value)).join

/-! ## Datagram handling (TurismoClient._handle_data and the telemetry
setter)

The mutable client state the handler touches: the configured heartbeat
type, the stored latest frame self._telem, the registered callbacks and
the frames handed to _invoke_callbacks so far (the dispatch record). -/

structure ClientState where
  heartbeat_type : String
  telem : Option Telemetry
  callbacks : List Callback
  dispatched : List Telemetry

/-- Embedding of the telemetry property setter: store the new frame under
the lock, then fire the callbacks when any are registered. -/
def set_telemetry (st : ClientState) (value : Telemetry) : ClientState :=
  { st with
    telem := some value
    dispatched := if st.callbacks.isEmpty then st.dispatched else st.dispatched ++ [value] }

/-- Embedding of the body of TurismoClient._handle_data after decryption:
decode the first 4 bytes as ASCII (a decode error is caught and the
datagram dropped), reject unknown header tags with a debug log, pick the
byte order from the tag, parse and store.  The error result models the
uncaught struct.error that _parse_telemetry raises on a truncated body;
every other path returns normally. -/
def handle_message (st : ClientState) (message : List Nat) : Except Unit ClientState :=
  match asciiDecode (message.take 4) with
  | none => Except.ok st
  | some header =>
    let body := message.drop 4
    if ¬ (header ∈ (["0S7G", "G6S0"] : List String)) then Except.ok st
    else
      let sr := if header = "0S7G" then SpanReader.init body "little"
                else SpanReader.init body "big"
      match parseTelemetry st.heartbeat_type sr with
      | none => Except.error ()
      | some t => Except.ok (set_telemetry st t)

/-- Embedding of TurismoClient._handle_data: decrypt, catching any
exception (the datagram is then dropped with a debug log and the state is
unchanged), then handle the plaintext message. -/
def handle_data (salsa : List Nat → List Nat → List Nat → List Nat)
    (is_gt7 : Bool) (st : ClientState) (data : List Nat) : Except Unit ClientState :=
  match decrypt salsa is_gt7 data with
  | Except.error _ => Except.ok st
  | Except.ok message => handle_message st message

/-! ## Frame store (the telemetry property getter and setter)

Python objects live on a heap and variables hold references;
copy.deepcopy allocates a fresh object with the same value.  The heap is
embedded as a map from addresses to frames together with a fresh-address
counter; the store slot self._telem is embedded as an optional address.
The lock around the copy is elided: the embedding is sequential, and the
claims about the getter concern aliasing, not interleaving. -/

structure FrameHeap where
  next_addr : Nat
  mem : Nat → Option Telemetry

/-- Allocate a fresh object holding the given frame value. -/
def FrameHeap.alloc (h : FrameHeap) (t : Telemetry) : Nat × FrameHeap :=
  (h.next_addr,
   { next_addr := h.next_addr + 1
     mem := fun i => if i = h.next_addr then some t else h.mem i })

/-- Mutate the object at an address in place. -/
def FrameHeap.write (h : FrameHeap) (r : Nat) (t : Telemetry) : FrameHeap :=
  { h with mem := fun i => if i = r then some t else h.mem i }

/-- Reference cell of the store: self._telem holds either no frame yet or
a reference to the latest stored frame object. -/
structure StoreState where
  telem_ref : Option Nat

/-- Embedding of the telemetry property getter: None when nothing is
stored, otherwise a deep copy of the stored object, i.e. a freshly
allocated object with the same value (copy.deepcopy under the lock). -/
def telemetry_get (st : StoreState) (h : FrameHeap) : Option Nat × FrameHeap :=
  match st.telem_ref with
  | none => (none, h)
  | some r =>
    match h.mem r with
    | none => (none, h)
    | some v =>
      let rh := h.alloc v
      (some rh.1, rh.2)

/-- Embedding of the store step of the telemetry setter: the freshly
constructed frame object becomes the stored latest frame. -/
def telemetry_set (st : StoreState) (h : FrameHeap) (t : Telemetry) : StoreState × FrameHeap :=
  let rh := h.alloc t
  ({ telem_ref := some rh.1 }, rh.2)

/-! ## Client construction (TurismoClient.__init__ and
gt_telem/errors/playstation_errors.py)

The constructor validates the heartbeat type, resolves the target address
from discovery or the explicit argument, rejects a missing address and a
standby console, adjusts the ports for the edition and then constructs
the cipher.  The cipher call passes two positional arguments while
PDEncyption.__init__ declares exactly one besides self, so Python raises
TypeError there; the embedding models the call through Python arity
checking.  No socket is opened anywhere in the constructor: the loops
open sockets only after start or run is called. -/

/-- Dynamic Python value passed as a constructor argument. -/
inductive PyVal
  | bool (b : Bool)
  | str (s : String)

/-- Python call semantics for PDEncyption(...): the signature
def __init__(self, is_gt7) binds exactly one positional argument; any
other count raises TypeError (the error case).  The stored attribute
self.is_gt7 is whatever value was passed. -/
def PDEncyption_call (args : List PyVal) : Except Unit PyVal :=
  match args with
  | [v] => Except.ok v
  | _ => Except.error ()

/-- Error kinds raised by TurismoClient.__init__, in source order. -/
inductive InitError
  | valueErrorHeartbeat
  | playStationNotFound
  | playStationOnStandby (ip : String)
  | typeErrorCipherCall
deriving DecidableEq

/-- Configured client view produced when __init__ would complete. -/
structure TurismoClientView where
  heartbeat_type : String
  ip_addr : String
  receive_port : Nat
  bind_port : Nat
  crypto : PyVal

/-- Occurrence check of the Python expression needle in haystack for
strings, used by the standby test "STANDBY" in ps. -/
def str_contains (haystack needle : String) : Bool :=
  (List.range (haystack.length + 1)).any
    (fun i => (haystack.data.drop i).take needle.length = needle.data)

/-- Embedding of TurismoClient.__init__.  Arguments: the constructor
parameters and the discovery result of get_ps_ip_type (an optional
address and an optional host-type string).  The expression ip or ps_ip
is the Python None-coalescing idiom, embedded with Option.orElse; the
ports start from the class constants 33339 and 33340 and gain 400 for the
GT7 edition; the cipher is constructed with two positional arguments. -/
def turismo_client_init (is_gt7 : Bool) (ps_ip : Option String)
    (heartbeat_type : String)
    (discovered_ip : Option String) (discovered_type : Option String) :
    Except InitError TurismoClientView :=
  if ¬ (heartbeat_type ∈ (["A", "B", "~"] : List String)) then
    Except.error InitError.valueErrorHeartbeat
  else
    match discovered_ip.orElse (fun _ => ps_ip) with
    | none => Except.error InitError.playStationNotFound
    | some ip =>
      if (match discovered_type with
          | some ps => str_contains ps "STANDBY"
          | none => false) then
        Except.error (InitError.playStationOnStandby ip)
      else
        let receive_port := if is_gt7 then 33339 + 400 else 33339
        let bind_port := if is_gt7 then 33340 + 400 else 33340
        match PDEncyption_call [PyVal.bool is_gt7, PyVal.str heartbeat_type] with
        | Except.error _ => Except.error InitError.typeErrorCipherCall
        | Except.ok crypto =>
          Except.ok { heartbeat_type, ip_addr := ip, receive_port, bind_port, crypto }

/-- Exception class names defined in
gt_telem/errors/playstation_errors.py. -/
def playstation_errors_defined : List String :=
  ["PlayStationNotFoundError", "PlayStationOnStandbyError"]

/-- Names that gt_telem/turismo_client.py imports from
gt_telem.errors.playstation_errors (lines 8 and 9 of the source). -/
def turismo_client_error_imports : List String :=
  ["PlayStationNotFoundError", "PlayStatonOnStandbyError"]

/-! ## Concrete fixtures used by witnesses and test scenarios -/

/-- All-zero base record. -/
def zero_telemetry_data : TelemetryData :=
  { position_x := 0, position_y := 0, position_z := 0, velocity_x := 0,
    velocity_y := 0, velocity_z := 0, rotation_x := 0, rotation_y := 0,
    rotation_z := 0, orientation := 0, ang_vel_x := 0, ang_vel_y := 0,
    ang_vel_z := 0, body_height := 0, engine_rpm := 0, iv := 0,
    fuel_level := 0, fuel_capacity := 0, speed_mps := 0, boost_pressure := 0,
    oil_pressure := 0, water_temp := 0, oil_temp := 0, tire_fl_temp := 0,
    tire_fr_temp := 0, tire_rl_temp := 0, tire_rr_temp := 0, packet_id := 0,
    current_lap := 0, total_laps := 0, best_lap_time_ms := 0,
    last_lap_time_ms := 0, time_of_day_ms := 0, race_start_pos := 0,
    total_cars := 0, min_alert_rpm := 0, max_alert_rpm := 0,
    calc_max_speed := 0, flags := 0, bits := 0, throttle := 0, brake := 0,
    empty := 0, road_plane_x := 0, road_plane_y := 0, road_plane_z := 0,
    road_plane_dist := 0, wheel_fl_rps := 0, wheel_fr_rps := 0,
    wheel_rl_rps := 0, wheel_rr_rps := 0, tire_fl_radius := 0,
    tire_fr_radius := 0, tire_rl_radius := 0, tire_rr_radius := 0,
    tire_fl_sus_height := 0, tire_fr_sus_height := 0,
    tire_rl_sus_height := 0, tire_rr_sus_height := 0, unused1 := 0,
    unused2 := 0, unused3 := 0, unused4 := 0, unused5 := 0, unused6 := 0,
    unused7 := 0, unused8 := 0, clutch_pedal := 0, clutch_engagement := 0,
    trans_rpm := 0, trans_top_speed := 0, gear1 := 0, gear2 := 0, gear3 := 0,
    gear4 := 0, gear5 := 0, gear6 := 0, gear7 := 0, gear8 := 0,
    car_code := 0 }

/-- All-zero frame, trailer fields at their None defaults. -/
def zero_telemetry : Telemetry :=
  { toTelemetryData := zero_telemetry_data }

/-- Frame whose lap-time and time-of-day fields carry the -1 sentinel. -/
def sentinel_telemetry : Telemetry :=
  { toTelemetryData :=
      { zero_telemetry_data with
        best_lap_time_ms := -1
        last_lap_time_ms := -1
        time_of_day_ms := -1 } }

/-- Crafted base body: all zero except current_lap = 1 at offset 112,
total_laps = 5 at offset 114 and flags bit 0 at offset 138 (little
endian). -/
def crafted_body : List Nat :=
  (((List.replicate 292 0).set 112 1).set 114 5).set 138 1

/-- Crafted plaintext datagram: the little-endian header tag followed by
the crafted base body. -/
def crafted_message : List Nat :=
  strBytes "0S7G" ++ crafted_body

/-- Client state configured for heartbeat type A with nothing stored. -/
def client_state_A : ClientState :=
  { heartbeat_type := "A", telem := none, callbacks := [], dispatched := [] }

/-- Latest frame carried by a handler result: the stored frame on a
normal return, none when the handler raised. -/
def result_telem (r : Except Unit ClientState) : Option Telemetry :=
  match r with
  | Except.ok st => st.telem
  | Except.error _ => none

/-- Registered callback that always raises the message boom. -/
def cb_boom : Callback :=
  { name := "on_frame"
    is_async := false
    args := []
    call := fun _ _ => Except.error "boom" }

/-- Frame decoded under heartbeat type B from a 312-byte all-zero body. -/
def telemetry_B_zero : Telemetry :=
  (parseTelemetry "B" (SpanReader.init (List.replicate 312 0) "little")).get (by rfl)

/-- Store whose slot references address 0. -/
def store_state_0 : StoreState := { telem_ref := some 0 }

/-- Heap holding one frame object at address 0. -/
def frame_heap_0 : FrameHeap :=
  { next_addr := 1
    mem := fun i => if i = 0 then some zero_telemetry else none }

/-- Trailer fields of wire variant B are all unset. -/
def trailer_b_absent (t : Telemetry) : Prop :=
  t.wheel_rotation_radians = none ∧ t.filler_float_fb = none ∧
  t.sway = none ∧ t.heave = none ∧ t.surge = none

/-- Trailer fields of wire variant B are all populated. -/
def trailer_b_present (t : Telemetry) : Prop :=
  t.wheel_rotation_radians.isSome = true ∧ t.filler_float_fb.isSome = true ∧
  t.sway.isSome = true ∧ t.heave.isSome = true ∧ t.surge.isSome = true

/-- Trailer fields of wire variant tilde are all unset. -/
def trailer_tilde_absent (t : Telemetry) : Prop :=
  t.throttle_filtered = none ∧ t.brake_filtered = none ∧
  t.unk_tilde_1 = none ∧ t.unk_tilde_2 = none ∧
  t.energy_recovery = none ∧ t.unk_tilde_3 = none

/-- Trailer fields of wire variant tilde are all populated. -/
def trailer_tilde_present (t : Telemetry) : Prop :=
  t.throttle_filtered.isSome = true ∧ t.brake_filtered.isSome = true ∧
  t.unk_tilde_1.isSome = true ∧ t.unk_tilde_2.isSome = true ∧
  t.energy_recovery.isSome = true ∧ t.unk_tilde_3.isSome = true

/-! ## Theorems -/

/-- Round trip of a byte below 128 through Char.ofNat. -/
theorem char_toNat_ofNat_of_lt (b : Nat) (h : b < 128) : (Char.ofNat b).toNat = b := by
  have hv : b.isValidChar := Or.inl (by omega)
  simp [Char.ofNat, hv, Char.ofNatAux, Char.toNat, UInt32.toNat, BitVec.toNat_ofNatLt]

/-- An ASCII decode recovers exactly the input bytes. -/
theorem strBytes_of_asciiDecode {bs : List Nat} {s : String}
    (h : asciiDecode bs = some s) : strBytes s = bs := by
  unfold asciiDecode at h
  split at h
  case isTrue hall =>
    cases h
    unfold strBytes
    show (String.mk (bs.map Char.ofNat)).data.map Char.toNat = bs
    have hall2 := List.all_eq_true.mp hall
    rw [show (String.mk (bs.map Char.ofNat)).data = bs.map Char.ofNat from rfl,
        List.map_map]
    calc bs.map (Char.toNat ∘ Char.ofNat)
        = bs.map id := List.map_congr_left (fun b hb => by
            have := hall2 b hb
            simpa using char_toNat_ofNat_of_lt b (by simpa using this))
      _ = bs := List.map_id bs
  case isFalse => exact Option.noConfusion h

/-- C1 counterexample: the wire variants A and B are distinct, yet the
nonce mask the cipher consults for them is the same constant, refuting the
claim that each variant uses a distinct XOR mask. -/
theorem nonce_mask_not_variant_distinct :
    ("A" : String) ≠ "B" ∧
    nonce_mask_for_variant "A" = nonce_mask_for_variant "B" :=
  ⟨by decide, rfl⟩

/-- C1 (amended): the cipher consults the single constant nonce mask
0xDEADBEAF for every wire variant, and for any sufficiently long datagram
decrypt builds the nonce from (seed XOR that mask, seed); only the game
edition varies the key, and the two edition keys differ. -/
theorem nonce_mask_uniform (v1 v2 : String)
    (salsa : List Nat → List Nat → List Nat → List Nat) (is_gt7 : Bool)
    (ct : List Nat) (hlen : 0x44 ≤ ct.length) :
    nonce_mask_for_variant v1 = nonce_mask_for_variant v2 ∧
    nonce_mask_for_variant v1 = 0xDEADBEAF ∧
    edition_key true ≠ edition_key false ∧
    decrypt salsa is_gt7 ct =
      Except.ok (salsa ct
        (packLE4 (wordLE ((ct.drop 0x40).take 4) ^^^ nonce_mask_for_variant v1) ++
         packLE4 (wordLE ((ct.drop 0x40).take 4)))
        (edition_key is_gt7)) := by
  have hseed : ((ct.drop 0x40).take 4).length = 4 := by
    rw [List.length_take, List.length_drop]; omega
  refine ⟨rfl, rfl, by decide, ?_⟩
  simp only [decrypt, hseed, if_pos]
  rfl

/-- C1 amended witness at a concrete 0x44-byte ciphertext. -/
theorem nonce_mask_uniform_witness :
    0x44 ≤ (List.replicate 0x44 0).length ∧
    decrypt (fun c _ _ => c) true (List.replicate 0x44 0) =
      Except.ok (List.replicate 0x44 0) :=
  ⟨by decide,
   by
    have h := nonce_mask_uniform "A" "B" (fun c _ _ => c) true
      (List.replicate 0x44 0) (by decide)
    exact h.2.2.2⟩

/-- C3: a lap-time or time-of-day field equal to the -1 sentinel makes the
corresponding formatted property return None, the explicit unavailable
result, never a numeric time string. -/
theorem lap_time_sentinel_formats_unavailable (t : Telemetry) :
    (t.best_lap_time_ms = -1 → TelemetryPacket.best_lap_time t = none) ∧
    (t.last_lap_time_ms = -1 → TelemetryPacket.last_lap_time t = none) ∧
    (t.time_of_day_ms = -1 → TelemetryPacket.time_of_day t = none) := by
  refine ⟨fun h => ?_, fun h => ?_, fun h => ?_⟩ <;>
    simp [TelemetryPacket.best_lap_time, TelemetryPacket.last_lap_time,
          TelemetryPacket.time_of_day, h]

/-- C3 witness at a concrete frame carrying the sentinels. -/
theorem lap_time_sentinel_formats_unavailable_witness :
    TelemetryPacket.best_lap_time sentinel_telemetry = none ∧
    TelemetryPacket.last_lap_time sentinel_telemetry = none ∧
    TelemetryPacket.time_of_day sentinel_telemetry = none :=
  ⟨(lap_time_sentinel_formats_unavailable sentinel_telemetry).1 rfl,
   (lap_time_sentinel_formats_unavailable sentinel_telemetry).2.1 rfl,
   (lap_time_sentinel_formats_unavailable sentinel_telemetry).2.2 rfl⟩

/-- C7: the crafted little-endian plaintext with current_lap 1,
total_laps 5 and flags bit 0 set decodes to a stored frame with
current_lap 1, total_laps 5 and cars_on_track true. -/
theorem crafted_packet_decodes :
    ((result_telem (handle_message client_state_A crafted_message)).map
      (fun t => (t.current_lap, t.total_laps, TelemetryPacket.cars_on_track t))) =
      some (1, 5, true) := by decide

/-- C8: the client imports the standby error under the misspelled name
PlayStatonOnStandbyError, which the errors module does not define (it
defines PlayStationOnStandbyError), so loading the client module raises
ImportError and neither precondition error can ever be raised. -/
theorem standby_error_import_mismatch :
    "PlayStatonOnStandbyError" ∈ turismo_client_error_imports ∧
    ¬ ("PlayStatonOnStandbyError" ∈ playstation_errors_defined) ∧
    "PlayStationOnStandbyError" ∈ playstation_errors_defined := by
  decide

/-- C2: a decrypted datagram whose first 4 bytes match neither header tag
is rejected without any exception reaching the caller, the stored frame is
untouched and nothing is dispatched: the handler returns the state it was
given. -/
theorem bad_header_leaves_state_unchanged (st : ClientState) (message : List Nat)
    (h1 : message.take 4 ≠ strBytes "0S7G")
    (h2 : message.take 4 ≠ strBytes "G6S0") :
    handle_message st message = Except.ok st := by
  cases hdec : asciiDecode (message.take 4) with
  | none => unfold handle_message; rw [hdec]
  | some header =>
    have hbytes := strBytes_of_asciiDecode hdec
    have hnot : ¬ (header ∈ (["0S7G", "G6S0"] : List String)) := by
      intro hmem
      rcases List.mem_cons.mp hmem with h | h
      · exact h1 (h ▸ hbytes).symm
      · rcases List.mem_cons.mp h with h | h
        · exact h2 (h ▸ hbytes).symm
        · exact List.not_mem_nil header h
    simp only [handle_message, hdec]
    rw [if_pos hnot]

/-- C2 witness: a concrete four-byte garbage datagram is dropped with the
state unchanged. -/
theorem bad_header_leaves_state_unchanged_witness :
    (([1, 2, 3, 4] : List Nat).take 4 ≠ strBytes "0S7G") ∧
    (([1, 2, 3, 4] : List Nat).take 4 ≠ strBytes "G6S0") ∧
    handle_message client_state_A [1, 2, 3, 4] = Except.ok client_state_A :=
  ⟨by decide, by decide,
   bad_header_leaves_state_unchanged client_state_A [1, 2, 3, 4] (by decide) (by decide)⟩

/-- C4: an exception raised inside a registered handler, synchronous or
asynchronous, is caught at the dispatch boundary and logged with the
handler name; the wrapper returns only log entries so nothing propagates,
and dispatching a list of handlers decomposes into the independent
dispatch of each one, so one failing handler cannot affect another. -/
theorem handler_exceptions_isolated (cb : Callback) (t : Telemetry) :
    (∀ e, (if cb.args.isEmpty then cb.call t [] else cb.call t cb.args) = Except.error e →
      run_sync_callback_threaded cb t = ["Error in sync callback " ++ cb.name ++ ": " ++ e] ∧
      run_async_callback cb t = ["Error in async callback " ++ cb.name ++ ": " ++ e]) ∧
    ((if cb.args.isEmpty then cb.call t [] else cb.call t cb.args) = Except.ok () →
      run_sync_callback_threaded cb t = [] ∧ run_async_callback cb t = []) ∧
    (∀ pre post, invoke_callbacks (pre ++ cb :: post) t =
      invoke_callbacks pre t ++ dispatch_one cb t ++ invoke_callbacks post t) := by
  refine ⟨fun e he => ?_, fun hok => ?_, fun pre post => ?_⟩
  · refine ⟨?_, ?_⟩
    · unfold run_sync_callback_threaded
      rw [he]
    · unfold run_async_callback
      rw [he]
  · refine ⟨?_, ?_⟩
    · unfold run_sync_callback_threaded
      rw [hok]
    · unfold run_async_callback
      rw [hok]
  · unfold invoke_callbacks
    simp [List.map_append]

/-- C4 witness: a concrete always-raising handler produces exactly the two
log lines naming it, and its dispatch within a list is independent. -/
theorem handler_exceptions_isolated_witness :
    run_sync_callback_threaded cb_boom zero_telemetry =
      ["Error in sync callback on_frame: boom"] ∧
    run_async_callback cb_boom zero_telemetry =
      ["Error in async callback on_frame: boom"] ∧
    invoke_callbacks ([] ++ cb_boom :: []) zero_telemetry =
      invoke_callbacks [] zero_telemetry ++ dispatch_one cb_boom zero_telemetry ++
        invoke_callbacks [] zero_telemetry :=
  ⟨((handler_exceptions_isolated cb_boom zero_telemetry).1 "boom" rfl).1,
   ((handler_exceptions_isolated cb_boom zero_telemetry).1 "boom" rfl).2,
   (handler_exceptions_isolated cb_boom zero_telemetry).2.2 [] []⟩

/-- C6: a datagram shorter than 0x44 bytes makes the seed extraction in
decrypt fail (struct.error in the source), and the datagram handler
catches the failure and returns normally with the state unchanged, so the
ingestion loop survives and the stored frame is untouched. -/
theorem undersized_datagram_discarded
    (salsa : List Nat → List Nat → List Nat → List Nat) (is_gt7 : Bool)
    (st : ClientState) (data : List Nat) (hlen : data.length < 0x44) :
    decrypt salsa is_gt7 data = Except.error () ∧
    handle_data salsa is_gt7 st data = Except.ok st := by
  have hseed : ¬ ((data.drop 0x40).take 4).length = 4 := by
    rw [List.length_take, List.length_drop]; omega
  have h1 : decrypt salsa is_gt7 data = Except.error () := by
    unfold decrypt
    rw [if_neg hseed]
  refine ⟨h1, ?_⟩
  unfold handle_data
  rw [h1]

/-- C6 witness at a concrete empty datagram. -/
theorem undersized_datagram_discarded_witness :
    (([] : List Nat).length < 0x44) ∧
    decrypt (fun c _ _ => c) true [] = Except.error () ∧
    handle_data (fun c _ _ => c) true client_state_A [] = Except.ok client_state_A :=
  ⟨by decide,
   undersized_datagram_discarded (fun c _ _ => c) true client_state_A [] (by decide)⟩

/-- C5: a frame the decoder produces under a wire variant carries exactly
that variant trailer: under A every trailer field is None, under B the
five motion fields are populated and the tilde fields are None, under
tilde the six tilde fields are populated and the B fields are None. -/
theorem variant_trailer_exclusive (ht : String) (sr : SpanReader) (t : Telemetry)
    (hp : parseTelemetry ht sr = some t) :
    (ht = "A" → trailer_b_absent t ∧ trailer_tilde_absent t) ∧
    (ht = "B" → trailer_b_present t ∧ trailer_tilde_absent t) ∧
    (ht = "~" → trailer_b_absent t ∧ trailer_tilde_present t) := by
  unfold parseTelemetry at hp
  cases hbase : read_telemetry_data sr with
  | none =>
    rw [hbase] at hp
    exact Option.noConfusion hp
  | some p =>
    rw [hbase] at hp
    obtain ⟨base, sr1⟩ := p
    dsimp only at hp
    refine ⟨fun hA => ?_, fun hB => ?_, fun hT => ?_⟩
    · subst hA
      rw [if_neg (by decide), if_neg (by decide)] at hp
      cases Option.some.inj hp
      exact ⟨⟨rfl, rfl, rfl, rfl, rfl⟩, ⟨rfl, rfl, rfl, rfl, rfl, rfl⟩⟩
    · subst hB
      rw [if_pos rfl] at hp
      split at hp
      · exact Option.noConfusion hp
      · split at hp
        · exact Option.noConfusion hp
        · split at hp
          · exact Option.noConfusion hp
          · split at hp
            · exact Option.noConfusion hp
            · split at hp
              · exact Option.noConfusion hp
              · cases Option.some.inj hp
                exact ⟨⟨rfl, rfl, rfl, rfl, rfl⟩, ⟨rfl, rfl, rfl, rfl, rfl, rfl⟩⟩
    · subst hT
      rw [if_neg (by decide), if_pos rfl] at hp
      split at hp
      · exact Option.noConfusion hp
      · split at hp
        · exact Option.noConfusion hp
        · split at hp
          · exact Option.noConfusion hp
          · split at hp
            · exact Option.noConfusion hp
            · split at hp
              · exact Option.noConfusion hp
              · split at hp
                · exact Option.noConfusion hp
                · split at hp
                  · exact Option.noConfusion hp
                  · split at hp
                    · exact Option.noConfusion hp
                    · split at hp
                      · exact Option.noConfusion hp
                      · split at hp
                        · exact Option.noConfusion hp
                        · cases Option.some.inj hp
                          exact ⟨⟨rfl, rfl, rfl, rfl, rfl⟩,
                                 ⟨rfl, rfl, rfl, rfl, rfl, rfl⟩⟩

/-- C5 witness: the 312-byte all-zero body parsed under heartbeat B yields
a frame with the B trailer populated and the tilde trailer absent. -/
theorem variant_trailer_exclusive_witness :
    parseTelemetry "B" (SpanReader.init (List.replicate 312 0) "little") =
      some telemetry_B_zero ∧
    (trailer_b_present telemetry_B_zero ∧ trailer_tilde_absent telemetry_B_zero) :=
  ⟨rfl,
   (variant_trailer_exclusive "B" (SpanReader.init (List.replicate 312 0) "little")
     telemetry_B_zero rfl).2.1 rfl⟩

/-- C9: reading the latest frame returns None when nothing is stored, and
otherwise a deep copy: a fresh object, distinct from the stored one, with
the same value; mutating the returned object leaves the stored frame
unchanged, and a subsequent store of a new frame leaves the returned copy
unchanged. -/
theorem telemetry_get_returns_copy (st : StoreState) (h : FrameHeap)
    (hwf : ∀ r, st.telem_ref = some r → r < h.next_addr ∧ (h.mem r).isSome = true) :
    (st.telem_ref = none → telemetry_get st h = (none, h)) ∧
    (∀ r, st.telem_ref = some r →
      ∃ r2 h2, telemetry_get st h = (some r2, h2) ∧
        r2 ≠ r ∧
        h2.mem r2 = h.mem r ∧
        h2.mem r = h.mem r ∧
        (∀ t2, (h2.write r2 t2).mem r = h.mem r) ∧
        (∀ tnew, ((telemetry_set st h2 tnew).2).mem r2 = h2.mem r2)) := by
  constructor
  · intro hnone
    unfold telemetry_get
    rw [hnone]
  · intro r hr
    obtain ⟨hlt, hsome⟩ := hwf r hr
    obtain ⟨v, hv⟩ := Option.isSome_iff_exists.mp hsome
    have hne : h.next_addr ≠ r := by omega
    refine ⟨h.next_addr, (h.alloc v).2, ?_, hne, ?_, ?_, ?_, ?_⟩
    · unfold telemetry_get
      rw [hr]
      dsimp only
      rw [hv]
      rfl
    · show (if h.next_addr = h.next_addr then some v else h.mem h.next_addr) = h.mem r
      rw [if_pos rfl, hv]
    · show (if r = h.next_addr then some v else h.mem r) = h.mem r
      rw [if_neg (fun he => hne he.symm)]
    · intro t2
      show (if r = h.next_addr then some t2
            else if r = h.next_addr then some v else h.mem r) = h.mem r
      rw [if_neg (fun he => hne he.symm), if_neg (fun he => hne he.symm)]
    · intro tnew
      show (if h.next_addr = h.next_addr + 1 then some tnew
            else (h.alloc v).2.mem h.next_addr) = (h.alloc v).2.mem h.next_addr
      rw [if_neg (by omega)]

/-- C9 witness at a one-object heap. -/
theorem telemetry_get_returns_copy_witness :
    ∃ r2 h2, telemetry_get store_state_0 frame_heap_0 = (some r2, h2) ∧
      r2 ≠ 0 ∧
      h2.mem r2 = frame_heap_0.mem 0 ∧
      h2.mem 0 = frame_heap_0.mem 0 ∧
      (∀ t2, (h2.write r2 t2).mem 0 = frame_heap_0.mem 0) ∧
      (∀ tnew, ((telemetry_set store_state_0 h2 tnew).2).mem r2 = h2.mem r2) :=
  (telemetry_get_returns_copy store_state_0 frame_heap_0
    (by
      intro r hr
      have h0 : r = 0 := by
        have : some 0 = some r := hr
        exact (Option.some.inj this).symm
      subst h0
      exact ⟨by decide, rfl⟩)).2 0 rfl

/-- C10: for every argument combination that passes the heartbeat,
address and standby checks, the constructor fails with the TypeError from
calling PDEncyption with two positional arguments, and no construction
ever succeeds, so no session can reach the running state. -/
theorem client_init_type_error (is_gt7 : Bool)
    (ps_ip discovered_ip discovered_type : Option String)
    (heartbeat_type : String) (ip : String)
    (hhb : heartbeat_type ∈ (["A", "B", "~"] : List String))
    (hip : discovered_ip.orElse (fun _ => ps_ip) = some ip)
    (hsb : (match discovered_type with
            | some ps => str_contains ps "STANDBY"
            | none => false) = false) :
    turismo_client_init is_gt7 ps_ip heartbeat_type discovered_ip discovered_type =
      Except.error InitError.typeErrorCipherCall ∧
    (∀ view, turismo_client_init is_gt7 ps_ip heartbeat_type discovered_ip
        discovered_type ≠ Except.ok view) := by
  have h1 : turismo_client_init is_gt7 ps_ip heartbeat_type discovered_ip
      discovered_type = Except.error InitError.typeErrorCipherCall := by
    unfold turismo_client_init
    rw [if_neg (not_not_intro hhb), hip]
    dsimp only
    rw [if_neg (by rw [hsb]; exact Bool.false_ne_true)]
    rfl
  refine ⟨h1, fun view hv => ?_⟩
  rw [h1] at hv
  exact Except.noConfusion hv

/-- C10 witness: a discovered awake console and a valid heartbeat type
still end in the cipher TypeError. -/
theorem client_init_type_error_witness :
    turismo_client_init true none "A" (some "192.168.1.10") (some "PS5") =
      Except.error InitError.typeErrorCipherCall :=
  (client_init_type_error true none (some "192.168.1.10") (some "PS5") "A"
    "192.168.1.10" (by decide) rfl rfl).1

end GtTelem
